import Mathlib

/-!
Verification development for the SupaAgent conversational code-assistant.

The embedding follows the TypeScript sources:
* the chat endpoint (intent classification and response synthesis) from the
  process-request route handler;
* the workspace session manager (openIDEWorkspace, saveCodeToWorkspace,
  loadCodeFromWorkspace) built on the browser localStorage;
* the file-upload descriptor extraction (handleFileUpload);
* the deployment route handler and the client-side deployment state machine
  (handleDeploy).

JavaScript strings are modelled as Lean String values; substring, prefix and
suffix tests are spelled out over the underlying character lists so that every
predicate is executable.  The browser localStorage is modelled as a total map
from keys to optional string values together with an availability flag: a
setItem call throws (QuotaExceededError) exactly when the store is full or
unavailable, which the model renders as an Except error.  Date.now() is passed
in explicitly as the millisecond clock value observed by a call.
-/

namespace SupaAgent

/-! ### JavaScript string primitives -/

/-- Model of JavaScript String.prototype.toLowerCase (ASCII case folding; the
keywords tested by the classifier are all ASCII). -/
def toLowerCase (s : String) : String := String.mk (s.data.map Char.toLower)

/-- Model of JavaScript String.prototype.startsWith. -/
def strStartsWith (s pat : String) : Bool := pat.data.isPrefixOf s.data

/-- Model of JavaScript String.prototype.endsWith. -/
def strEndsWith (s pat : String) : Bool := pat.data.isSuffixOf s.data

/-- Occurrence of the needle at some position of the haystack, scanning left to
right; an empty needle occurs everywhere, as in JavaScript. -/
def listIncl (needle : List Char) : List Char → Bool
  | [] => needle.isEmpty
  | c :: t => needle.isPrefixOf (c :: t) || listIncl needle t

/-- Model of JavaScript String.prototype.includes. -/
def strIncludes (s pat : String) : Bool := listIncl pat.data s.data

/-- Model of the JavaScript a-or-b idiom on an optional string: undefined and
the empty string are falsy and select the default. -/
def jsOr (o : Option String) (d : String) : String :=
  match o with
  | some s => if s = "" then d else s
  | none => d

/-! ### File descriptors (the UploadedFile interface) -/

/-- Normalized descriptor of an uploaded file: name, MIME type, size, optional
inline text content, optional blob URL (the UploadedFile interface). -/
structure UploadedFile where
  name : String
  type : String
  size : Nat
  content : Option String
  url : Option String
deriving DecidableEq

/-! ### Intent categories

The route handler tags each branch with a metadata.type string:
"image-analysis", "zip-extraction", "figma-conversion", "file-analysis",
"github", "website", "build", "debug", or no type at all in the generic help
branch.  The specification names these categories image-analysis,
zip-extraction, figma-conversion, file-analysis, github-clone, website-clone,
app-build, debug and none, in the same order; the embedding uses the
specification's closed set, one constructor per branch of the handler. -/
inductive Category where
  | imageAnalysis
  | zipExtraction
  | figmaConversion
  | fileAnalysis
  | githubClone
  | websiteClone
  | appBuild
  | debug
  | none
deriving DecidableEq

/-! ### Parameter extraction (extractUrl, extractAppName) -/

/-- Attempted URL match anchored at the current position: the pattern
https?://\S+ matches here when the text starts with http:// or https:// and at
least one non-whitespace character follows the scheme separator; the match is
the maximal run of non-whitespace characters (greedy \S+). -/
def urlMatchAt (l : List Char) : Option (List Char) :=
  let run := l.takeWhile (fun c => !c.isWhitespace)
  if ("https://".data).isPrefixOf l then
    if run.length > 8 then some run else Option.none
  else if ("http://".data).isPrefixOf l then
    if run.length > 7 then some run else Option.none
  else Option.none

/-- Leftmost match of https?://\S+, scanning position by position as the
JavaScript regular-expression engine does. -/
def urlScan : List Char → Option (List Char)
  | [] => Option.none
  | c :: t =>
    match urlMatchAt (c :: t) with
    | some r => some r
    | Option.none => urlScan t

/-- Model of extractUrl: the first substring matching https?://\S+, or the
empty string when the message holds no such substring. -/
def extractUrl (message : String) : String :=
  match urlScan message.data with
  | some r => String.mk r
  | Option.none => ""

/-- Word character of the regular-expression class \w (ASCII letters, digits
and underscore). -/
def isWordChar (c : Char) : Bool := c.isAlphanum || c = '_'

/-- Leftmost case-insensitive match of the pattern: the nine characters of
"app like " compared case-insensitively, followed by at least one word
character; the captured group is the maximal word-character run, taken from
the original (non-folded) text. -/
def appNameScan : List Char → Option (List Char)
  | [] => Option.none
  | c :: t =>
    if ("app like ".data).isPrefixOf ((c :: t).map Char.toLower) then
      let cap := ((c :: t).drop 9).takeWhile isWordChar
      if cap.isEmpty then appNameScan t else some cap
    else appNameScan t

/-- Model of extractAppName: the capture of app like (\w+) with the /i flag,
defaulting to the generic placeholder used by the handler. -/
def extractAppName (message : String) : String :=
  match appNameScan message.data with
  | some cap => String.mk cap
  | Option.none => "the requested application"

/-! ### Response synthesis (the narrative templates of the route handler) -/

/-- Narrative for the image-analysis branch. -/
def imageResponseText (fileNames : String) : String :=
  "🖼️ Analyzing uploaded images...\n\nI can see you've uploaded: " ++ fileNames ++
  "\n\nI'm processing these images to:\n• Extract design patterns and layouts\n• Generate corresponding code\n• Create responsive components\n• Optimize for web performance\n\nThe generated code will be available in your IDE workspace."

/-- Narrative for the zip-extraction branch. -/
def zipResponseText (fileNames : String) : String :=
  "📦 Processing uploaded ZIP file...\n\nI'm extracting and analyzing: " ++ fileNames ++
  "\n\nProcessing steps:\n• Extract ZIP contents\n• Analyze project structure\n• Set up development environment\n• Import into IDE workspace\n\nYour project will be ready for editing shortly."

/-- Narrative for the figma-conversion branch. -/
def figmaResponseText : String :=
  "🎨 Processing Figma design...\n\nI'm converting your Figma design to code:\n• Extract design tokens and components\n• Generate React/HTML components\n• Apply responsive design patterns\n• Create production-ready code\n\nThe converted design will open in your IDE workspace."

/-- Narrative for the generic file-analysis branch. -/
def fileAnalysisResponseText (fileNames : String) : String :=
  "📁 Processing uploaded files...\n\nI've received: " ++ fileNames ++
  "\n\nI'm analyzing the files to:\n• Understand the project structure\n• Generate missing components\n• Optimize and enhance the code\n• Set up the development environment\n\nThe processed project will be available in your IDE workspace."

/-- Narrative for the github-clone branch. -/
def githubResponseText : String :=
  "🔄 Cloning GitHub repository...\n\nI'm analyzing the repository structure and preparing to:\n• Clone the repository locally\n• Analyze the codebase architecture\n• Set up the development environment\n• Open the project in VSCode.dev\n\nThe repository will be available in your IDE workspace shortly."

/-- Narrative for the website-clone branch. -/
def websiteResponseText : String :=
  "🌐 Cloning website...\n\nI'm analyzing the website and preparing to:\n• Scrape the website structure and content\n• Generate clean, modern code\n• Set up responsive design\n• Create optimized assets\n• Open the project in VSCode.dev\n\nThe cloned website will be available in your IDE workspace shortly."

/-- Narrative for the app-build branch. -/
def buildResponseText (appName : String) : String :=
  "🚀 Building an app like " ++ appName ++
  "...\n\nI'm creating a comprehensive application with:\n• Modern UI/UX design\n• Full authentication system\n• Database integration\n• API endpoints\n• Responsive design\n• Production-ready deployment\n\nThe project structure will be set up in your IDE workspace."

/-- Narrative for the debug branch. -/
def debugResponseText : String :=
  "🔧 Analyzing code for debugging...\n\nI'm examining the codebase to:\n• Identify potential issues\n• Suggest optimizations\n• Fix bugs and errors\n• Improve performance\n• Update dependencies\n\nI'll provide detailed solutions and open the fixed code in your IDE."

/-- Narrative for the generic help branch (no category matched). -/
def helpResponseText : String :=
  "💡 I can help you with that!\n\nAs your AI Fullstack Developer, I can:\n• Clone any website or GitHub repository\n• Build applications from scratch\n• Debug and optimize existing code\n• Create modern, responsive interfaces\n• Set up databases and APIs\n• Deploy to production\n\nPlease provide more specific details about what you'd like me to help you with."

/-! ### The classification and synthesis chain of the chat route handler -/

/-- Result of one branch of the route handler: the narrative string together
with the branch metadata (category, openIDE flag and the branch parameters
url, appName, files).  The help branch produces empty metadata, rendered as
category none with openIDE false and absent parameters. -/
structure BranchResult where
  response : String
  category : Category
  openIDE : Bool
  url : Option String
  appName : Option String
  attachedFiles : Option (List UploadedFile)
deriving DecidableEq

/-- Embedding of the if/else chain of the chat route handler: the file branches
are tried first (image, then zip, then figma, then generic file analysis),
then the clone branch, the build branch and the debug branch, with the generic
help response as the final fallback.  The guard files && files.length > 0 is
rendered through Option.getD: an absent or empty file list falls through to
the message branches. -/
def respond (message : String) (filesOpt : Option (List UploadedFile)) : BranchResult :=
  let files := filesOpt.getD []
  if files.length > 0 then
    let fileNames := String.intercalate ", " (files.map (fun f => f.name))
    if files.any (fun f => strStartsWith f.type "image/") then
      { response := imageResponseText fileNames, category := Category.imageAnalysis,
        openIDE := true, url := Option.none, appName := Option.none,
        attachedFiles := some files }
    else if files.any (fun f => strEndsWith f.name ".zip") then
      { response := zipResponseText fileNames, category := Category.zipExtraction,
        openIDE := true, url := Option.none, appName := Option.none,
        attachedFiles := some files }
    else if files.any (fun f => strIncludes f.name "figma" || strIncludes f.type "figma") then
      { response := figmaResponseText, category := Category.figmaConversion,
        openIDE := true, url := Option.none, appName := Option.none,
        attachedFiles := some files }
    else
      { response := fileAnalysisResponseText fileNames, category := Category.fileAnalysis,
        openIDE := true, url := Option.none, appName := Option.none,
        attachedFiles := some files }
  else if strIncludes (toLowerCase message) "clone" &&
      (strIncludes message "http" || strIncludes message "github") then
    if strIncludes message "github.com" then
      { response := githubResponseText, category := Category.githubClone,
        openIDE := true, url := some (extractUrl message), appName := Option.none,
        attachedFiles := Option.none }
    else
      { response := websiteResponseText, category := Category.websiteClone,
        openIDE := true, url := some (extractUrl message), appName := Option.none,
        attachedFiles := Option.none }
  else if strIncludes (toLowerCase message) "build" &&
      strIncludes (toLowerCase message) "app like" then
    let appName := extractAppName message
    { response := buildResponseText appName, category := Category.appBuild,
      openIDE := true, url := Option.none, appName := some appName,
      attachedFiles := Option.none }
  else if strIncludes (toLowerCase message) "debug" || strIncludes (toLowerCase message) "fix" then
    { response := debugResponseText, category := Category.debug,
      openIDE := true, url := Option.none, appName := Option.none,
      attachedFiles := Option.none }
  else
    { response := helpResponseText, category := Category.none,
      openIDE := false, url := Option.none, appName := Option.none,
      attachedFiles := Option.none }

/-- Entry of the external model registry: display name and provider name
(spec section 6; the registry itself lives outside this repository and is
passed in as a collaborator). -/
structure ModelEntry where
  name : String
  provider : String
deriving DecidableEq

/-- Metadata object of the chat response after spreading in the model fields. -/
structure ChatMetadata where
  category : Category
  openIDE : Bool
  url : Option String
  appName : Option String
  files : Option (List UploadedFile)
  modelUsed : String
  provider : String
deriving DecidableEq

/-- Body of the successful chat response: narrative, metadata, and the echoed
model identifier. -/
structure ChatResponse where
  response : String
  metadata : ChatMetadata
  model : String
deriving DecidableEq

/-- Embedding of the chat route handler POST body: classify and synthesize via
respond, resolve the model entry through the external registry with the venice
entry as the fallback for unknown identifiers, and echo the model identifier
(the venice identifier when the given one is falsy).  The history field of the
request is destructured but never read, which the embedding renders by taking
the history argument at an arbitrary type and ignoring it. -/
def processRequest {α : Type} (registry : String → Option ModelEntry) (venice : ModelEntry)
    (message modelId : String) (_history : α)
    (filesOpt : Option (List UploadedFile)) : ChatResponse :=
  let br := respond message filesOpt
  let selectedModel := (registry modelId).getD venice
  { response := br.response,
    metadata :=
      { category := br.category, openIDE := br.openIDE, url := br.url,
        appName := br.appName, files := br.attachedFiles,
        modelUsed := selectedModel.name, provider := selectedModel.provider },
    model := if modelId = "" then "venice" else modelId }

/-! ### Workspace session manager (localStorage-backed)

The browser localStorage is a flat string-keyed map.  getItem returns null for
an absent key and never throws; setItem throws a QuotaExceededError when the
store is full or otherwise unavailable.  The model carries the map as a total
function to optional values plus an availability flag, and renders a throwing
setItem as an Except error that the workspace functions do not catch, exactly
as the source code does not. -/

/-- Model of the browser localStorage: the key-value map plus an availability
flag; avail is false when the store is full or unavailable, making every write
throw. -/
structure Store where
  getItem : String → Option String
  avail : Bool

/-- Model of localStorage.setItem: updates the map when the store is
available, throws (Except.error) when it is not. -/
def lsSetItem (st : Store) (k v : String) : Except Unit Store :=
  if st.avail then
    Except.ok { getItem := fun q => if q = k then some v else st.getItem q, avail := st.avail }
  else Except.error ()

/-- Store with no entries that accepts writes. -/
def emptyStore : Store := { getItem := fun _ => Option.none, avail := true }

/-- Store that is full or unavailable: every write throws. -/
def unavailableStore : Store := { getItem := fun _ => Option.none, avail := false }

/-- Workspace identity allocated by the source: the string workspace- followed
by the decimal rendering of the Date.now() millisecond value observed at the
call. -/
def mkWorkspaceId (now : Nat) : String := "workspace-" ++ Nat.repr now

/-- Embedding of saveCodeToWorkspace: the id is the explicit workspaceId when
given and truthy, else a fresh identity from the clock; the code and the file
name are written under the keys id-code and id-fileName with no exception
handling, so a throwing write propagates.  Returns the id together with the
updated store. -/
def saveCodeToWorkspace (st : Store) (code fileName : String)
    (workspaceId : Option String) (now : Nat) : Except Unit (String × Store) :=
  let id := jsOr workspaceId (mkWorkspaceId now)
  match lsSetItem st (id ++ "-code") code with
  | Except.error e => Except.error e
  | Except.ok st1 =>
    match lsSetItem st1 (id ++ "-fileName") fileName with
    | Except.error e => Except.error e
    | Except.ok st2 => Except.ok (id, st2)

/-- Embedding of loadCodeFromWorkspace: a pure pair of getItem reads under the
keys workspaceId-code and workspaceId-fileName; an absent entry is the null
(here: none) result, never an error. -/
def loadCodeFromWorkspace (st : Store) (workspaceId : String) :
    Option String × Option String :=
  (st.getItem (workspaceId ++ "-code"), st.getItem (workspaceId ++ "-fileName"))

/-- Embedding of openIDEWorkspace: allocates a fresh identity from the clock;
when the metadata carries truthy code it persists the code and the file name
(defaulted to app.tsx) under that identity with no exception handling; returns
the workspace id and the vscode.dev URL together with the updated store.  The
window.open side effect is outside the model. -/
def openIDEWorkspace (st : Store) (code fileName : Option String) (now : Nat) :
    Except Unit (String × String × Store) :=
  let workspaceId := mkWorkspaceId now
  let vscodeUrl := "https://vscode.dev/?folder=/tmp/" ++ workspaceId
  match code with
  | some c =>
    if c = "" then Except.ok (workspaceId, vscodeUrl, st)
    else
      match lsSetItem st (workspaceId ++ "-code") c with
      | Except.error e => Except.error e
      | Except.ok st1 =>
        match lsSetItem st1 (workspaceId ++ "-fileName") (jsOr fileName "app.tsx") with
        | Except.error e => Except.error e
        | Except.ok st2 => Except.ok (workspaceId, vscodeUrl, st2)
  | Option.none => Except.ok (workspaceId, vscodeUrl, st)

/-! ### File descriptor extraction (handleFileUpload) -/

/-- Raw uploaded file as handed to the upload handler: metadata plus the
outcome of reading its payload as text (file.text() can reject) and the blob
URL that URL.createObjectURL would mint for it. -/
structure RawFile where
  name : String
  type : String
  size : Nat
  textResult : Except Unit String
  blobUrl : String

/-- Embedding of the per-file body of handleFileUpload.  Images get a blob URL
and no inline content.  Zip files (by MIME type or name suffix) read their
payload inline with no exception handling, so a rejected read propagates.
Every other file reads its payload inside a try/catch and falls back to a
metadata-only descriptor when the read fails. -/
def extractFile (f : RawFile) : Except Unit UploadedFile :=
  if strStartsWith f.type "image/" then
    Except.ok { name := f.name, type := f.type, size := f.size,
                content := Option.none, url := some f.blobUrl }
  else if f.type == "application/zip" || strEndsWith f.name ".zip" then
    match f.textResult with
    | Except.error e => Except.error e
    | Except.ok c =>
      Except.ok { name := f.name, type := f.type, size := f.size,
                  content := some c, url := Option.none }
  else
    match f.textResult with
    | Except.ok c =>
      Except.ok { name := f.name, type := f.type, size := f.size,
                  content := some c, url := Option.none }
    | Except.error _ =>
      Except.ok { name := f.name, type := f.type, size := f.size,
                  content := Option.none, url := Option.none }

/-- Embedding of the handleFileUpload loop: each file is extracted in order and
an uncaught rejection aborts the whole loop, as an await failure outside the
try/catch would. -/
def handleFileUpload (files : List RawFile) : Except Unit (List UploadedFile) :=
  files.mapM extractFile

/-! ### Deployment (the deploy route handler and handleDeploy) -/

/-- Node of the client file tree sent along with a deploy request. -/
inductive FileNode where
  | mk (name : String) (isFolder : Bool) (children : List FileNode)
      (content : Option String)

/-- Body of the deploy route response: the success flag with optional result
URLs and optional error message. -/
structure DeployResponse where
  success : Bool
  url : Option String
  repoUrl : Option String
  errMsg : Option String
deriving DecidableEq

/-- Embedding of the simulated Vercel deployment of the deploy route: a pair
of the deployment URL and the linked repository URL, derived from the clock. -/
def deployToVercel (_code _fileName : String) (_fileTree : List FileNode) (now : Nat) :
    String × String :=
  ("https://your-app-" ++ Nat.repr now ++ ".vercel.app",
   "https://github.com/user/your-app-" ++ Nat.repr now)

/-- Embedding of the simulated GitHub push of the deploy route. -/
def pushToGitHub (_code _fileName : String) (_fileTree : List FileNode) (now : Nat) : String :=
  "https://github.com/user/your-app-" ++ Nat.repr now

/-- Embedding of the deploy route handler POST body: vercel deploys yield
success with both URLs, github pushes yield success with the repository URL,
any other platform yields a non-throwing failure response, and the catch-all
turns an internal throw into a failure response as well (so the route always
answers with a success flag, never an exception). -/
def deployPOST (platform code fileName : String) (fileTree : List FileNode) (now : Nat) :
    DeployResponse :=
  if platform = "vercel" then
    let r := deployToVercel code fileName fileTree now
    { success := true, url := some r.1, repoUrl := some r.2, errMsg := Option.none }
  else if platform = "github" then
    { success := true, url := Option.none,
      repoUrl := some (pushToGitHub code fileName fileTree now), errMsg := Option.none }
  else
    { success := false, url := Option.none, repoUrl := Option.none,
      errMsg := some "Invalid platform" }

/-- The four values of the client deploymentStatus field.  The specification
names them idle, in-progress, succeeded and failed; the source literals are
idle, deploying, success and error, in the same order. -/
inductive DeployStatus where
  | idle
  | deploying
  | success
  | error
deriving DecidableEq

/-- Outcome of one deployment attempt as observed by the client: the terminal
status together with the result URLs surfaced in the success message. -/
structure DeploymentAttempt where
  status : DeployStatus
  resultUrl : Option String
  resultRepoUrl : Option String
deriving DecidableEq

/-- Embedding of the decision core of handleDeploy: the transport outcome (the
fetch of the deploy route plus response decoding, which can fail) determines
the terminal status; a transport failure or an unsuccessful response yields
the error status with no result URLs, a successful response yields the success
status carrying the URLs from the response. -/
def handleDeploy (transport : Except Unit DeployResponse) : DeploymentAttempt :=
  match transport with
  | Except.error _ =>
    { status := DeployStatus.error, resultUrl := Option.none, resultRepoUrl := Option.none }
  | Except.ok data =>
    if data.success then
      { status := DeployStatus.success, resultUrl := data.url, resultRepoUrl := data.repoUrl }
    else
      { status := DeployStatus.error, resultUrl := Option.none, resultRepoUrl := Option.none }

/-- Status values emitted by one handleDeploy invocation, in order: deploying
is set unconditionally on entry, exactly one terminal status follows, and the
timeout reverts the status to idle afterwards. -/
def handleDeployTrace (transport : Except Unit DeployResponse) : List DeployStatus :=
  [DeployStatus.deploying, (handleDeploy transport).status, DeployStatus.idle]

/-- Fixed delay, in milliseconds, after which a terminal deployment status
auto-reverts to idle. -/
def statusRevertDelayMs : Nat := 3000

/-! ### Decimal rendering is injective

Workspace identities embed Nat.repr of the clock value; distinguishing two
identities therefore needs injectivity of the decimal rendering, proved here
through an explicit digit-value left inverse. -/

/-- Numeric value of a decimal digit character. -/
def digitVal (c : Char) : Nat := c.toNat - 48

/-- Value of a big-endian decimal digit string. -/
def valDigits (l : List Char) : Nat := l.foldl (fun a c => 10 * a + digitVal c) 0

/-- Structural form of the big-endian decimal digit list of a natural
number. -/
def natDigits (n : Nat) : List Char :=
  if n < 10 then [Nat.digitChar n]
  else natDigits (n / 10) ++ [Nat.digitChar (n % 10)]
termination_by n
decreasing_by exact Nat.div_lt_self (by omega) (by omega)

theorem natDigits_lt {n : Nat} (h : n < 10) : natDigits n = [Nat.digitChar n] := by
  rw [natDigits, if_pos h]

theorem natDigits_ge {n : Nat} (h : ¬ n < 10) :
    natDigits n = natDigits (n / 10) ++ [Nat.digitChar (n % 10)] := by
  rw [natDigits, if_neg h]

theorem digitVal_digitChar {d : Nat} (h : d < 10) : digitVal (Nat.digitChar d) = d := by
  interval_cases d <;> rfl

theorem toDigitsCore10 (fuel : Nat) : ∀ (n : Nat) (ds : List Char), n < fuel →
    Nat.toDigitsCore 10 fuel n ds = natDigits n ++ ds := by
  induction fuel with
  | zero => intro n ds h; omega
  | succ f ih =>
    intro n ds h
    simp only [Nat.toDigitsCore]
    by_cases h0 : n / 10 = 0
    · have hn : n < 10 := by omega
      rw [if_pos h0, natDigits_lt hn, Nat.mod_eq_of_lt hn]
      rfl
    · have hlt : n / 10 < f := by omega
      rw [if_neg h0, ih (n / 10) _ hlt]
      conv_rhs => rw [natDigits_ge (show ¬ n < 10 by omega), List.append_assoc]
      rfl

theorem valDigits_natDigits (n : Nat) : valDigits (natDigits n) = n := by
  induction n using Nat.strong_induction_on with
  | _ n ih =>
    by_cases h : n < 10
    · rw [natDigits_lt h]
      simp [valDigits, digitVal_digitChar h]
    · rw [natDigits_ge h]
      have hsplit : valDigits (natDigits (n / 10) ++ [Nat.digitChar (n % 10)]) =
          10 * valDigits (natDigits (n / 10)) + digitVal (Nat.digitChar (n % 10)) := by
        simp [valDigits, List.foldl_append]
      rw [hsplit, ih (n / 10) (by omega), digitVal_digitChar (by omega)]
      omega

theorem natDigits_inj {m n : Nat} (h : natDigits m = natDigits n) : m = n := by
  have := congrArg valDigits h
  simpa [valDigits_natDigits] using this

theorem natRepr_eq_natDigits (n : Nat) : Nat.repr n = String.mk (natDigits n) := by
  rw [Nat.repr, Nat.toDigits, toDigitsCore10 (n + 1) n [] (by omega), List.append_nil]
  rfl

theorem natRepr_inj {m n : Nat} (h : Nat.repr m = Nat.repr n) : m = n := by
  apply natDigits_inj
  rw [natRepr_eq_natDigits, natRepr_eq_natDigits] at h
  exact congrArg String.data h

theorem mkWorkspaceId_inj {a b : Nat} (h : mkWorkspaceId a = mkWorkspaceId b) : a = b := by
  apply natRepr_inj
  apply String.ext
  have hd := congrArg String.data h
  simp only [mkWorkspaceId, String.data_append] at hd
  exact List.append_cancel_left hd

/-! ### Storage key lemmas

The persisted layout keys each workspace entry as id-code and id-fileName;
the frame and round-trip laws need the keys of distinct workspaces, and the
two keys of one workspace, to be distinct strings. -/

theorem append_cancel_suffix {a b s : String} (h : a ++ s = b ++ s) : a = b := by
  apply String.ext
  have hd := congrArg String.data h
  simp only [String.data_append] at hd
  exact List.append_cancel_right hd

theorem append_ne_of_ne {a b : String} (s : String) (h : a ≠ b) : a ++ s ≠ b ++ s :=
  fun he => h (append_cancel_suffix he)

theorem append_suffix_ne {s t : String} (a b : String)
    (h1 : 1 < s.data.length) (h2 : 1 < t.data.length)
    (h : s.data.reverse[1]? ≠ t.data.reverse[1]?) : a ++ s ≠ b ++ t := by
  intro he
  apply h
  have hd := congrArg (fun x => x.data.reverse[1]?) he
  simp only [String.data_append, List.reverse_append] at hd
  rwa [List.getElem?_append_left (by simpa using h1),
    List.getElem?_append_left (by simpa using h2)] at hd

theorem codeKey_ne_fileNameKey (a b : String) : a ++ "-code" ≠ b ++ "-fileName" :=
  append_suffix_ne a b (by decide) (by decide) (by decide)

theorem fileNameKey_ne_codeKey (a b : String) : a ++ "-fileName" ≠ b ++ "-code" :=
  append_suffix_ne a b (by decide) (by decide) (by decide)

theorem append_ne_empty_left (s t : String) (hs : s ≠ "") : s ++ t ≠ "" := by
  intro h
  apply hs
  apply String.ext
  have hd := congrArg String.data h
  simp only [String.data_append] at hd
  have : s.data = [] := (List.append_eq_nil.mp hd).1
  simpa using this

/-! ### Claim C1: workspace identity freshness -/

/-- Claim C1, counterexample: workspace identities are derived from Date.now()
alone, so two allocations observing the same millisecond value (here both
observe 5) return the same id and the allocated ids are not pairwise
distinct, refuting the claim that a fresh identity never collides with a
prior one for the process lifetime. -/
theorem mkWorkspaceId_not_pairwise_distinct :
    ¬ List.Pairwise (fun a b => a ≠ b) (List.map mkWorkspaceId [5, 5]) := by
  decide

/-- Claim C1, amended: across any sequence of allocations (openIDEWorkspace or
saveCodeToWorkspace without an explicit id, both of which build their id with
mkWorkspaceId), the returned workspace ids are pairwise distinct provided the
Date.now() millisecond values observed by the calls are pairwise distinct;
allocations sharing a millisecond share an id. -/
theorem mkWorkspaceId_pairwise_distinct_of_distinct_times (ts : List Nat)
    (h : List.Pairwise (fun a b => a ≠ b) ts) :
    List.Pairwise (fun a b => a ≠ b) (List.map mkWorkspaceId ts) := by
  refine List.pairwise_map.mpr (h.imp ?_)
  intro a b hne heq
  exact hne (mkWorkspaceId_inj heq)

/-- Claim C1, witness: two allocations at distinct milliseconds 1 and 2 get
distinct ids. -/
theorem mkWorkspaceId_pairwise_distinct_witness :
    List.Pairwise (fun a b => a ≠ b) (List.map mkWorkspaceId [1, 2]) :=
  mkWorkspaceId_pairwise_distinct_of_distinct_times [1, 2] (by decide)

/-! ### Claim C2: classification is total over the closed category set -/

/-- Claim C2: for every message, model identifier, history and file list, the
chat handler produces an action descriptor whose category is exactly one
value, drawn from the closed nine-element set image-analysis, zip-extraction,
figma-conversion, file-analysis, github-clone, website-clone, app-build,
debug, none. -/
theorem classify_total_closed_set {α : Type} (registry : String → Option ModelEntry)
    (venice : ModelEntry) (message modelId : String) (history : α)
    (filesOpt : Option (List UploadedFile)) :
    (∃! c : Category,
      (processRequest registry venice message modelId history filesOpt).metadata.category = c) ∧
    ((processRequest registry venice message modelId history filesOpt).metadata.category =
        Category.imageAnalysis ∨
      (processRequest registry venice message modelId history filesOpt).metadata.category =
        Category.zipExtraction ∨
      (processRequest registry venice message modelId history filesOpt).metadata.category =
        Category.figmaConversion ∨
      (processRequest registry venice message modelId history filesOpt).metadata.category =
        Category.fileAnalysis ∨
      (processRequest registry venice message modelId history filesOpt).metadata.category =
        Category.githubClone ∨
      (processRequest registry venice message modelId history filesOpt).metadata.category =
        Category.websiteClone ∨
      (processRequest registry venice message modelId history filesOpt).metadata.category =
        Category.appBuild ∨
      (processRequest registry venice message modelId history filesOpt).metadata.category =
        Category.debug ∨
      (processRequest registry venice message modelId history filesOpt).metadata.category =
        Category.none) := by
  constructor
  · exact ⟨_, rfl, fun y hy => hy.symm⟩
  · cases h : (processRequest registry venice message modelId history filesOpt).metadata.category <;>
      simp

/-! ### Claim C3: the clone branch -/

/-- Claim C3, counterexample: the claim keys the clone branch on the
lower-cased message containing clone and http or github, but the handler
tests http, github and github.com on the original message.  The message clone
HTTP://A satisfies the claim's lower-cased precondition (so the claim predicts
the website-clone category), yet the handler classifies it as none because the
original text contains neither http nor github in lower case. -/
theorem clone_branch_lowercase_http_refuted :
    strIncludes (toLowerCase "clone HTTP://A") "clone" = true ∧
    strIncludes (toLowerCase "clone HTTP://A") "http" = true ∧
    (respond "clone HTTP://A" Option.none).category = Category.none ∧
    (respond "clone HTTP://A" Option.none).category ≠ Category.websiteClone ∧
    (respond "clone HTTP://A" Option.none).category ≠ Category.githubClone := by
  refine ⟨rfl, rfl, rfl, by decide, by decide⟩

/-- Claim C3, amended: for every message without attachments whose LOWER-cased
text contains clone and whose ORIGINAL text contains http or github, the
handler takes the clone branch: github-clone when the original text contains
github.com and website-clone otherwise, in both cases with openIDE true and
the url parameter equal to extractUrl of the message (the first substring
matching https?://\S+, or empty when there is none). -/
theorem clone_branch_classification (m : String)
    (h1 : strIncludes (toLowerCase m) "clone" = true)
    (h2 : strIncludes m "http" = true ∨ strIncludes m "github" = true) :
    (strIncludes m "github.com" = true →
      respond m Option.none =
        { response := githubResponseText, category := Category.githubClone,
          openIDE := true, url := some (extractUrl m), appName := Option.none,
          attachedFiles := Option.none }) ∧
    (strIncludes m "github.com" = false →
      respond m Option.none =
        { response := websiteResponseText, category := Category.websiteClone,
          openIDE := true, url := some (extractUrl m), appName := Option.none,
          attachedFiles := Option.none }) := by
  have hcond : (strIncludes (toLowerCase m) "clone" &&
      (strIncludes m "http" || strIncludes m "github")) = true := by
    rcases h2 with h | h <;> simp [h1, h]
  constructor
  · intro hg
    simp [respond, hcond, hg]
  · intro hg
    simp [respond, hcond, hg]

/-- Claim C3, witness: the scenario of the claim.  The message clone
https://github.com/acme/widgets is classified github-clone with url equal to
https://github.com/acme/widgets and openIDE true. -/
theorem clone_branch_classification_witness :
    (respond "clone https://github.com/acme/widgets" Option.none).category =
      Category.githubClone ∧
    (respond "clone https://github.com/acme/widgets" Option.none).url =
      some "https://github.com/acme/widgets" ∧
    (respond "clone https://github.com/acme/widgets" Option.none).openIDE = true := by
  have h := (clone_branch_classification "clone https://github.com/acme/widgets"
    (by decide) (Or.inl (by decide))).1 (by decide)
  rw [h]
  exact ⟨rfl, by decide, rfl⟩

/-! ### Claim C4: saveCode under a full or unavailable store -/

/-- Claim C4, counterexample: saveCodeToWorkspace performs its setItem writes
with no exception handling, so with the store unavailable the write throws and
the call propagates the error instead of degrading to a silent no-op. -/
theorem saveCode_raises_when_store_unavailable :
    saveCodeToWorkspace unavailableStore "const x = 1" "app.tsx" (some "workspace-1") 0 =
      Except.error () := by rfl

/-- Claim C4, amended: saveCodeToWorkspace returns normally exactly when the
underlying store accepts writes; when the store is full or unavailable the
storage exception propagates to the caller, since the source wraps no
try/catch around its setItem calls. -/
theorem saveCode_ok_iff_store_available (st : Store) (code fileName : String)
    (workspaceId : Option String) (now : Nat) :
    (saveCodeToWorkspace st code fileName workspaceId now).isOk = st.avail := by
  unfold saveCodeToWorkspace lsSetItem
  cases h : st.avail
  · simp [h, Except.isOk, Except.toBool]
  · simp [h, Except.isOk, Except.toBool]

/-! ### Claim C5: file descriptor extraction fallback -/

/-- Claim C5, counterexample: in the zip branch of handleFileUpload the
file.text() read happens outside any try/catch, so a zip file whose payload
cannot be read makes extraction propagate the error instead of falling back
to a metadata-only descriptor, refuting the claim that the fallback covers
every branch including the zip branch. -/
theorem extractFile_zip_branch_propagates :
    extractFile { name := "site.zip", type := "application/zip", size := 4,
                  textResult := Except.error (), blobUrl := "" } = Except.error () := by rfl

/-- Claim C5, amended: the metadata-only fallback (name, type and size with
neither inline content nor a blob reference) applies only to the generic text
branch; the image branch always succeeds with a blob reference, and the zip
branch propagates a failed payload read as an error. -/
theorem extractFile_fallback_behavior (f : RawFile) :
    (strStartsWith f.type "image/" = true →
      extractFile f = Except.ok { name := f.name, type := f.type, size := f.size,
                                  content := Option.none, url := some f.blobUrl }) ∧
    (strStartsWith f.type "image/" = false →
      ((f.type == "application/zip") = true ∨ strEndsWith f.name ".zip" = true) →
      f.textResult = Except.error () →
      extractFile f = Except.error ()) ∧
    (strStartsWith f.type "image/" = false →
      (f.type == "application/zip") = false → strEndsWith f.name ".zip" = false →
      extractFile f = Except.ok (match f.textResult with
        | Except.ok c => { name := f.name, type := f.type, size := f.size,
                           content := some c, url := Option.none }
        | Except.error _ => { name := f.name, type := f.type, size := f.size,
                              content := Option.none, url := Option.none })) := by
  refine ⟨?_, ?_, ?_⟩
  · intro h
    simp [extractFile, h]
  · intro h hzip herr
    have hz : ((f.type == "application/zip") || strEndsWith f.name ".zip") = true := by
      rcases hzip with h' | h' <;> simp [h']
    simp [extractFile, h, hz, herr]
  · intro h hz1 hz2
    have hz : ((f.type == "application/zip") || strEndsWith f.name ".zip") = false := by
      simp [hz1, hz2]
    simp [extractFile, h, hz]
    cases f.textResult <;> simp

/-- Claim C5, witness: a plain text file with an unreadable payload extracts
to the metadata-only fallback descriptor. -/
theorem extractFile_fallback_behavior_witness :
    extractFile (RawFile.mk "notes.txt" "text/plain" 5 (Except.error ()) "") =
      Except.ok (UploadedFile.mk "notes.txt" "text/plain" 5 Option.none Option.none) := by
  have h := (extractFile_fallback_behavior
    (RawFile.mk "notes.txt" "text/plain" 5 (Except.error ()) "")).2.2
    (by decide) (by decide) (by decide)
  simpa using h

/-! ### Claim C6: the frame of saveCode -/

/-- Claim C6, counterexample: the store keys a single code slot and a single
fileName slot per workspace id (id-code and id-fileName), not a mapping per
file name.  After saving source-one under a.ts and then source-two under b.ts
in the same workspace, loading the workspace returns source-two with file
name b.ts: the source saved under a.ts is no longer retrievable, refuting the
per-file frame property. -/
theorem saveCode_overwrites_other_fileName :
    (saveCodeToWorkspace emptyStore "source-one" "a.ts" (some "w") 0 >>= fun r1 =>
      saveCodeToWorkspace r1.2 "source-two" "b.ts" (some "w") 0 >>= fun r2 =>
      Except.ok (loadCodeFromWorkspace r2.2 "w")) =
      Except.ok (some "source-two", some "b.ts") ∧
    ("source-two" : String) ≠ "source-one" := by
  exact ⟨rfl, by decide⟩

/-- Claim C6, amended: saveCode is an upsert of a single code/fileName pair
per WORKSPACE (a later save to the same workspace overwrites the earlier one
regardless of file name); the frame property holds across workspaces: a save
to a different workspace id leaves what loadCode returns for the first
workspace unchanged. -/
theorem saveCode_frame_across_workspaces (st : Store) (c1 f1 c2 f2 w1 w2 : String)
    (n1 n2 : Nat) (hav : st.avail = true) (hne : w1 ≠ w2) (hw1 : w1 ≠ "") (hw2 : w2 ≠ "") :
    (saveCodeToWorkspace st c1 f1 (some w1) n1 >>= fun r1 =>
      saveCodeToWorkspace r1.2 c2 f2 (some w2) n2 >>= fun r2 =>
      Except.ok (loadCodeFromWorkspace r2.2 w1)) =
    (saveCodeToWorkspace st c1 f1 (some w1) n1 >>= fun r1 =>
      Except.ok (loadCodeFromWorkspace r1.2 w1)) := by
  have k1 : w1 ++ "-code" ≠ w2 ++ "-code" := append_ne_of_ne _ hne
  have k2 : w1 ++ "-code" ≠ w2 ++ "-fileName" := codeKey_ne_fileNameKey w1 w2
  have k3 : w1 ++ "-fileName" ≠ w2 ++ "-fileName" := append_ne_of_ne _ hne
  have k4 : w1 ++ "-fileName" ≠ w2 ++ "-code" := fileNameKey_ne_codeKey w1 w2
  simp [saveCodeToWorkspace, lsSetItem, loadCodeFromWorkspace, jsOr, hav, hw1, hw2,
    k1, k2, k3, k4, Bind.bind, Except.bind]

/-- Claim C6, witness: concrete instance of the cross-workspace frame law. -/
theorem saveCode_frame_across_workspaces_witness :
    (saveCodeToWorkspace emptyStore "c1" "a.ts" (some "w1") 0 >>= fun r1 =>
      saveCodeToWorkspace r1.2 "c2" "b.ts" (some "w2") 0 >>= fun r2 =>
      Except.ok (loadCodeFromWorkspace r2.2 "w1")) =
    (saveCodeToWorkspace emptyStore "c1" "a.ts" (some "w1") 0 >>= fun r1 =>
      Except.ok (loadCodeFromWorkspace r1.2 "w1")) :=
  saveCode_frame_across_workspaces emptyStore "c1" "a.ts" "c2" "b.ts" "w1" "w2" 0 0 rfl
    (by decide) (by decide) (by decide)

/-! ### Claim C7: save/load round trip -/

/-- Claim C7: saveCode followed by loadCode on the same workspace id returns
exactly the saved source together with the saved file name, and loadCode on a
workspace under which nothing was ever saved is the total not-found result
(null code and null file name), never an exception. -/
theorem saveCode_loadCode_roundtrip (st : Store) (code fileName w : String) (now : Nat)
    (hav : st.avail = true) (hw : w ≠ "") :
    (saveCodeToWorkspace st code fileName (some w) now >>= fun r =>
      Except.ok (loadCodeFromWorkspace r.2 w)) = Except.ok (some code, some fileName) ∧
    loadCodeFromWorkspace emptyStore w = (Option.none, Option.none) := by
  have k : w ++ "-code" ≠ w ++ "-fileName" := codeKey_ne_fileNameKey w w
  constructor
  · simp [saveCodeToWorkspace, lsSetItem, loadCodeFromWorkspace, jsOr, hav, hw, k,
      Bind.bind, Except.bind]
  · rfl

/-- Claim C7, witness: concrete round trip through workspace w. -/
theorem saveCode_loadCode_roundtrip_witness :
    (saveCodeToWorkspace emptyStore "const a = 1" "app.tsx" (some "w") 7 >>= fun r =>
      Except.ok (loadCodeFromWorkspace r.2 "w")) =
      Except.ok (some "const a = 1", some "app.tsx") ∧
    loadCodeFromWorkspace emptyStore "w" = (Option.none, Option.none) :=
  saveCode_loadCode_roundtrip emptyStore "const a = 1" "app.tsx" "w" 7 rfl (by decide)

/-! ### Claim C8: deployment resolves to a reported status -/

/-- Claim C8: every deployment attempt resolves to a reported terminal status
(success or error, never an exception); a collaborator failure, whether a
transport error or an unsuccessful response, resolves to the failed status
with no result URLs; and a vercel deploy against the route handler, which
always reports success, terminates successfully with non-empty deployment and
repository URLs. -/
theorem handleDeploy_total_and_reported (t : Except Unit DeployResponse)
    (code fileName : String) (tree : List FileNode) (now : Nat) (u r em : Option String) :
    ((handleDeploy t).status = DeployStatus.success ∨
      (handleDeploy t).status = DeployStatus.error) ∧
    handleDeploy (Except.error ()) =
      { status := DeployStatus.error, resultUrl := Option.none,
        resultRepoUrl := Option.none } ∧
    handleDeploy (Except.ok { success := false, url := u, repoUrl := r, errMsg := em }) =
      { status := DeployStatus.error, resultUrl := Option.none,
        resultRepoUrl := Option.none } ∧
    handleDeploy (Except.ok (deployPOST "vercel" code fileName tree now)) =
      { status := DeployStatus.success,
        resultUrl := some ("https://your-app-" ++ Nat.repr now ++ ".vercel.app"),
        resultRepoUrl := some ("https://github.com/user/your-app-" ++ Nat.repr now) } ∧
    ("https://your-app-" ++ Nat.repr now ++ ".vercel.app" : String) ≠ "" ∧
    ("https://github.com/user/your-app-" ++ Nat.repr now : String) ≠ "" := by
  refine ⟨?_, rfl, rfl, rfl, ?_, ?_⟩
  · cases t with
    | error e => exact Or.inr rfl
    | ok d =>
      cases hd : d.success
      · right
        simp [handleDeploy, hd]
      · left
        simp [handleDeploy, hd]
  · exact append_ne_empty_left _ _ (append_ne_empty_left _ _ (by decide))
  · exact append_ne_empty_left _ _ (by decide)

/-! ### Claim C9: deployment status sequencing -/

/-- Claim C9: the status values observed for a single deployment attempt,
starting from the idle rest state, are exactly idle, deploying (in-progress),
one terminal status among success (succeeded) and error (failed), and idle
again; in particular the sequence is a subsequence of the permitted pattern,
no transition skips a state, a terminal state is only reached through the
in-progress state, and the terminal state auto-reverts to idle after the
fixed 3000 millisecond delay. -/
theorem handleDeploy_status_sequence (t : Except Unit DeployResponse) :
    (DeployStatus.idle :: handleDeployTrace t =
        [DeployStatus.idle, DeployStatus.deploying, DeployStatus.success, DeployStatus.idle] ∨
      DeployStatus.idle :: handleDeployTrace t =
        [DeployStatus.idle, DeployStatus.deploying, DeployStatus.error, DeployStatus.idle]) ∧
    statusRevertDelayMs = 3000 := by
  refine ⟨?_, rfl⟩
  cases t with
  | error e => exact Or.inr rfl
  | ok d =>
    cases hd : d.success
    · right
      simp [handleDeployTrace, handleDeploy, hd]
    · left
      simp [handleDeployTrace, handleDeploy, hd]

/-! ### Claim C10: the chat endpoint ignores the history field -/

/-- Claim C10: two chat requests that differ only in the history field (same
message, model identifier and files, against the same model registry) produce
identical responses: identical narrative text, identical metadata and an
identical model field.  The handler destructures history but never reads it,
so the result is literally independent of it (here even of its type). -/
theorem processRequest_ignores_history {α β : Type} (registry : String → Option ModelEntry)
    (venice : ModelEntry) (message modelId : String) (h1 : α) (h2 : β)
    (filesOpt : Option (List UploadedFile)) :
    processRequest registry venice message modelId h1 filesOpt =
      processRequest registry venice message modelId h2 filesOpt := rfl

end SupaAgent
